import Mathlib

/-!
# RasPyCam command-protocol layer: shallow embedding and verification

This file embeds the command-protocol and orchestration layer of the
RasPyCam daemon (files `app/core/process.py` and `app/core/model.py`)
as executable Lean definitions and proves properties of the embedded
code.

Modelling conventions:
* Python strings are Lean `String`s; the character-level helpers below
  reproduce the Python string primitives (`strip`, `split`,
  `startswith`, `int()`, `float()`, `str.isnumeric`) for the ASCII
  inputs the protocol uses.
* Python "floats" are modelled as exact rationals `ℚ`; every arithmetic
  expression of the source is reproduced verbatim over `ℚ`.
* I/O performed by the source (file writes, hardware calls, thread
  joins/starts, subprocess execution) is recorded as an explicit event
  trace (`Ev` below); state read back from the filesystem or hardware is
  not modelled beyond the event marking that the call happened.
* An uncaught Python exception is modelled by an `Option String`
  exception slot carrying the exception class name.
-/

namespace RasPyCam

/-! ## Python string primitives -/

/-- Whitespace characters recognised by Python's `str.strip()`
(ASCII subset, which covers every string the protocol layer handles). -/
def pyIsSpace (c : Char) : Bool :=
  c = ' ' || c = '\t' || c = '\n' || c = '\x0d' || c = '\x0b' || c = '\x0c'

/-- `str.strip()` on a character list: drop leading and trailing whitespace. -/
def pyStripChars (cs : List Char) : List Char :=
  ((cs.dropWhile pyIsSpace).reverse.dropWhile pyIsSpace).reverse

/-- Python `str.strip()`. -/
def pyStrip (s : String) : String :=
  String.mk (pyStripChars s.data)

/-- Helper for `pySplitChar`: accumulates the current piece (reversed). -/
def pySplitCharAux (sep : Char) : List Char → List Char → List (List Char)
  | [], acc => [acc.reverse]
  | c :: rest, acc =>
      if c = sep then acc.reverse :: pySplitCharAux sep rest []
      else pySplitCharAux sep rest (c :: acc)

/-- Python `str.split(sep)` for a one-character separator: splits at every
occurrence, keeping empty pieces (`"".split(",") == [""]`). -/
def pySplitChar (sep : Char) (cs : List Char) : List (List Char) :=
  pySplitCharAux sep cs []

/-- Python `str.split(sep, 1)` for a one-character separator: the part
before the first occurrence and the part after it (the whole string and
`""` when the separator does not occur, which callers guard against). -/
def pySplitOnceChar (sep : Char) (cs : List Char) : List Char × List Char :=
  match pySplitChar sep cs with
  | [] => ([], [])
  | x :: rest =>
      (x, (rest.map String.mk |> String.intercalate (String.mk [sep])).data)

/-- `a.isPre b`-style check written out: is `pat` an initial segment of `cs`? -/
def strHasPre : List Char → List Char → Bool
  | [], _ => true
  | _ :: _, [] => false
  | p :: ps, c :: cs => p = c && strHasPre ps cs

/-- Python `str.startswith(pat)`. -/
def pyStartsWith (pat s : String) : Bool :=
  strHasPre pat.data s.data

/-- Decimal value of a digit list (caller checks all characters are digits). -/
def digitsVal (cs : List Char) : Nat :=
  cs.foldl (fun acc c => acc * 10 + (c.toNat - '0'.toNat)) 0

/-- Python `int(s)`: optional surrounding whitespace, optional sign, then a
nonempty run of ASCII decimal digits; anything else raises `ValueError`,
modelled as `none`. -/
def pyParseInt (s : String) : Option Int :=
  let cs := pyStripChars s.data
  match cs with
  | '+' :: rest =>
      if rest ≠ [] ∧ rest.all Char.isDigit then some (Int.ofNat (digitsVal rest))
      else none
  | '-' :: rest =>
      if rest ≠ [] ∧ rest.all Char.isDigit then some (-(Int.ofNat (digitsVal rest)))
      else none
  | rest =>
      if rest ≠ [] ∧ rest.all Char.isDigit then some (Int.ofNat (digitsVal rest))
      else none

/-- Python `str.isnumeric()` (ASCII digits, as used for the `ca` duration). -/
def pyIsNumeric (s : String) : Bool :=
  s.data ≠ [] && s.data.all Char.isDigit

/-- Python `float(s)` for plain decimal literals: optional whitespace and
sign, digits with at most one point (`"1"`, `"1.5"`, `".5"`, `"5."`).
Exponent forms are not used by any caller in this layer. The value is the
exact rational. -/
def pyParseFloat (s : String) : Option ℚ :=
  let cs := pyStripChars s.data
  let signAndRest : ℚ × List Char :=
    match cs with
    | '-' :: rest => (-1, rest)
    | '+' :: rest => (1, rest)
    | rest => (1, rest)
  let sign := signAndRest.1
  let body := signAndRest.2
  match pySplitChar '.' body with
  | [intPart] =>
      if intPart ≠ [] ∧ intPart.all Char.isDigit then
        some (sign * (digitsVal intPart : ℚ))
      else none
  | [intPart, fracPart] =>
      if (intPart ≠ [] ∨ fracPart ≠ []) ∧ intPart.all Char.isDigit ∧
          fracPart.all Char.isDigit then
        some (sign * ((digitsVal intPart : ℚ) +
          (digitsVal fracPart : ℚ) / ((10 : ℚ) ^ fracPart.length)))
      else none
  | _ => none

/-- Replace every occurrence of `"/,"` by `","` (Python
`param.replace("/,", ",")`, left-to-right, non-overlapping). -/
def unescapeCommas : List Char → List Char
  | [] => []
  | '/' :: ',' :: rest => ',' :: unescapeCommas rest
  | c :: rest => c :: unescapeCommas rest

/-- `re.split("(?<!/),", s)`: split at every comma not directly preceded by
a slash in the original string.  `prev` carries the previous original
character. -/
def splitUnescapedAux : List Char → Option Char → List Char → List (List Char)
  | [], _, acc => [acc.reverse]
  | c :: rest, prev, acc =>
      if c = ',' ∧ prev ≠ some '/' then
        acc.reverse :: splitUnescapedAux rest (some c) []
      else
        splitUnescapedAux rest (some c) (c :: acc)

/-- Splitting used for bracketed group parameters (`process.py` line 195). -/
def splitUnescaped (cs : List Char) : List (List Char) :=
  splitUnescapedAux cs none []

/-! ## Camera record state (`CameraCoreModel`, `app/core/model.py`)

Only the configuration entries and flags read or written by the
command-protocol layer are carried.  Defaults are the hardcoded defaults
of `CameraCoreModel.__init__`.  Python stores `hflip`/`vflip` initially
as booleans and later as the integers written by the `fl` handler; since
Python booleans are integers (`False == 0`), both are carried as `Int`. -/

structure CamConfig where
  anno : String := "RPi Cam %Y.%M.%D_%h:%m:%s"  -- config key "annotation"
  sharpness : ℚ := 1
  contrast : ℚ := 1
  brightness : ℚ := 0
  saturation : ℚ := 1
  analogue_gain : ℚ := 7
  exposure_compensation : ℚ := 0
  white_balance_mode : String := "auto"
  colorgains_red : ℚ := 0
  colorgains_blue : ℚ := 0
  hflip : Int := 0
  vflip : Int := 0
  exposure_time : ℚ := 0
  preview_size : Int × Int := (512, 288)
  divider : Int := 1
  preview_quality : Int := 50
  video_width : Int := 1920
  video_height : Int := 1080
  video_fps : Int := 30
  video_bitrate : Int := 17000000
  mp4_fps : Int := 30
  image_width : Int := 1920
  image_height : Int := 1080
  image_quality : Int := 85
  motion_mode : String := "internal"
  motion_threshold : ℚ := 7
  motion_initframes : Int := 0
  motion_startframes : Int := 3
  motion_stopframes : Int := 50
  log_size : Int := 5000
  picam_buffer_count : Int := 2
  solo_stream_mode : Bool := false
  tl_interval : Int := 30
  deriving DecidableEq

/-- One camera record: the mutable per-camera state of `CameraCoreModel`
visible to the command layer, plus the started/encoder bits of its
Picamera2 controller and the aliveness of the preview/MD worker pair
(both workers are started and joined together, so one bit suffices). -/
structure CamState where
  config : CamConfig := {}
  current_status : String := "halted"
  show_preview : Bool := true
  capturing_still : Bool := false
  capturing_video : Bool := false
  record_until : Option Int := none
  sensor_format : Int × Int := (1920, 1080)
  sensor_resolution : Int × Int := (4056, 3040)
  solo_stream_mode : Bool := false
  motion_detection : Bool := false
  timelapse_on : Bool := false
  timelapse_count : Int := 0
  picam2_started : Bool := false
  encoder_running : Bool := false
  threads_alive : Bool := false
  detected_motion : Bool := false
  motion_still_count : Int := 0
  motion_active_count : Int := 0
  preview_stream : String := "lores"
  record_stream : String := "lores"
  md_stream : String := "raw"
  write_to_config : List (String × String) := []
  deriving DecidableEq

/-! ## Status derivation (`CameraCoreModel.set_status`, model.py 1019-1059) -/

/-- Python truthiness of the optional `status` argument
(`if status:` — `None` and `""` are falsy). -/
def statusTruthy : Option String → Bool
  | some t => t ≠ ""
  | none => false

/-- `CameraCoreModel.set_status(status=None)`, translated clause by clause
from `model.py` lines 1019-1059. -/
def set_status (s : CamState) (status : Option String) : CamState :=
  if statusTruthy status ∧ s.current_status = "" then
    { s with current_status := status.getD "" }
  else if statusTruthy status ∧ pyStartsWith "Error" (status.getD "") then
    { s with current_status := status.getD "" }
  else if status = some "halted" then
    { s with current_status := "halted" }
  else if ¬ s.picam2_started then
    { s with current_status := "halted" }
  else if s.capturing_still then
    { s with current_status := "image" }
  else if s.capturing_video then
    { s with current_status :=
        if s.motion_detection then
          (if s.timelapse_on then "tl_md_video" else "md_video")
        else
          (if s.timelapse_on then "tl_video" else "video") }
  else
    { s with current_status :=
        if s.motion_detection then
          (if s.timelapse_on then "tl_md_ready" else "md_ready")
        else
          (if s.timelapse_on then "timelapse" else "ready") }

/-- The status-derivation rule as worded by the specification (claim C2):
first match wins on controller-started, `capturing_still`,
`capturing_video`, `motion_detection`, `timelapse_on`. -/
def specDerivedStatus (started still video md tl : Bool) : String :=
  if ¬ started then "halted"
  else if still then "image"
  else if video then
    (if md then (if tl then "tl_md_video" else "md_video")
     else (if tl then "tl_video" else "video"))
  else
    (if md then (if tl then "tl_md_ready" else "md_ready")
     else (if tl then "timelapse" else "ready"))

/-! ## Command table and the pipe grammar (`process.py`) -/

/-- Keys of `CameraCoreModel.VALID_COMMANDS` (model.py 23-67). -/
def VALID_COMMANDS : List String :=
  ["an", "sh", "co", "br", "sa", "ss", "ec", "is", "qu", "ca", "px", "pv",
   "im", "md", "mx", "mt", "ms", "mb", "me", "ru", "bi", "sc", "fl", "rs",
   "cn", "im+im", "dp", "cr", "cs", "ix", "ix+ix", "1s", "wb", "ag", "tl",
   "tv"]

/-- The value a command code maps to in `VALID_COMMANDS`: `None`, a single
configurable setting name, or a list of setting names. -/
inductive CfgSetting where
  | noneSet
  | one (key : String)
  | many (keys : List String)
  deriving DecidableEq

/-- Value side of `CameraCoreModel.VALID_COMMANDS` (model.py 23-67). -/
def valid_command_setting : String → CfgSetting
  | "an" => .one "annotation"
  | "sh" => .one "sharpness"
  | "co" => .one "contrast"
  | "br" => .one "brightness"
  | "sa" => .one "saturation"
  | "ss" => .one "shutter_speed"
  | "ec" => .one "exposure_compensation"
  | "is" => .one "iso"
  | "qu" => .one "image_quality"
  | "px" => .many ["video_width", "video_height", "video_fps", "MP4Box_fps",
      "image_width", "image_height"]
  | "pv" => .many ["quality", "width", "divider", "height"]
  | "mx" => .one "motion_external"
  | "mt" => .one "motion_threshold"
  | "ms" => .one "motion_initframes"
  | "mb" => .one "motion_startframes"
  | "me" => .one "motion_stopframes"
  | "bi" => .one "video_bitrate"
  | "fl" => .many ["hflip", "vflip"]
  | "dp" => .one "show_preview"
  | "cr" => .one "camera_resolution"
  | "1s" => .one "solo_stream_mode"
  | "wb" => .one "white_balance"
  | "ag" => .many ["autowbgain_r", "autowbgain_b"]
  | "tl" => .one "timelapse_start_stop"
  | "tv" => .one "tl_interval"
  | _ => .noneSet

/-- The stripped code list a group string parses to
(`process.py` lines 177-179). -/
def group_codes (contents_str : String) : List String :=
  let raw_codes := (pySplitOnceChar ']' contents_str.data).1
  (pySplitChar ',' (raw_codes.drop 1)).map (fun cs => String.mk (pyStripChars cs))

/-- `make_cmd_lists` (process.py 164-211): parse a `[codes] [params]` group
string; `none` models the Python `False` rejection. -/
def make_cmd_lists (contents_str : String) :
    Option (List String × List String) :=
  if ¬ contents_str.data.contains ']' then none
  else
    let split := pySplitOnceChar ']' contents_str.data
    let raw_params := split.2
    let cmd_codes := group_codes contents_str
    -- Validate commands: a blank entry skips a camera, any other entry
    -- must be a known code or the whole group is rejected.
    if ¬ cmd_codes.all (fun c => c == "" || VALID_COMMANDS.contains c) then none
    else
      let stripped := pyStripChars raw_params
      let cmd_params : List String :=
        if stripped ≠ [] then
          if stripped.head? = some '[' ∧ stripped.getLast? = some ']' then
            -- Individual parameters: split on unescaped commas, then
            -- unescape "/," to ",".
            (splitUnescaped ((stripped.drop 1).dropLast)).map
              (fun p => String.mk (unescapeCommas p))
          else
            -- One bare parameter string duplicated for every command.
            cmd_codes.map (fun _ => String.mk stripped)
        else []
      -- Pad with blank parameters while fewer params than codes.
      let padded :=
        cmd_params ++ List.replicate (cmd_codes.length - cmd_params.length) ""
      some (cmd_codes, padded)

/-! ## Command queue intake (`process.py` 143-161, model.py 22) -/

/-- `CameraCoreModel.FIFO_MAX` (model.py line 22): "Maximum number of
commands that can be queued at once". -/
def FIFO_MAX : Nat := 10

/-- A validated command as returned by `read_pipe`: a single
`(code, param)` pair or a group command pair of lists. -/
inductive PipeCmd where
  | single (code param : String)
  | group (codes params : List String)
  deriving DecidableEq

/-- The queue append performed by `parse_incoming_commands`
(process.py 159-160) for a validated command: an unconditional append,
with no check of the queue's current length. -/
def enqueue_incoming (queue : List PipeCmd) (cmd : PipeCmd) : List PipeCmd :=
  queue ++ [cmd]

/-! ## Event traces for the effectful collaborators -/

/-- Externally visible actions of the dispatcher and its collaborators.
`joinWorker`/`startWorker` number the preview worker 0 and the
motion-detection worker 1. `runScript` is the subprocess launch done by
the macro handler (`execute_macro_command`). -/
inductive Ev where
  | logLine (msg : String)
  | statusFileWrite
  | configFileWrite
  | joinWorker (i : Nat)
  | startWorker (i : Nat)
  | ctrlStop
  | ctrlStart
  | encoderStop
  | encoderStart
  | captureStill
  | captureStitched
  | setPreviews
  | fileCountScan
  | configReload
  | userConfigReset
  | thumbnailWrite
  | setControls
  | runScript (name : String) (args : List String)
  deriving DecidableEq

/-- `CameraCoreModel.print_to_logfile` (model.py 1205-1222): writes one
line to the log file unless `log_size` is 0. -/
def print_to_logfile (s : CamState) (msg : String) : List Ev :=
  if s.config.log_size = 0 then [] else [.logLine msg]

/-- `update_status_file` (process.py 35-57): re-derive the status with
`set_status()` and write it to the status file when non-empty. -/
def update_status_file (s : CamState) : CamState × List Ev :=
  let s1 := set_status s none
  (s1, if s1.current_status ≠ "" then [.statusFileWrite] else [])

/-- `pause_preview_md_threads` (process.py 254-271): set the status to the
`halted` sentinel, join both live workers, re-derive the status, and
replace the worker pair with fresh, not-yet-started threads. -/
def pause_preview_md_threads (s : CamState) : CamState × List Ev :=
  let s1 : CamState := { s with current_status := "halted" }
  let joins : List Ev :=
    if s1.threads_alive then [.joinWorker 0, .joinWorker 1] else []
  let s2 := set_status s1 none
  ({ s2 with threads_alive := false }, joins)

/-- `start_preview_md_threads` (process.py 274-280): start each worker
that is not already running. -/
def start_preview_md_threads (s : CamState) : CamState × List Ev :=
  if ¬ s.threads_alive then
    ({ s with threads_alive := true }, [.startWorker 0, .startWorker 1])
  else (s, [])

/-- `CameraCoreModel.stop_all` (model.py 295-305): stop the running
encoder and camera and clear the capture/motion/timelapse flags
(`reset_motion_state` inlined). -/
def stop_all (s : CamState) : CamState × List Ev :=
  let evs := (if s.encoder_running then [Ev.encoderStop] else []) ++
    (if s.picam2_started then [Ev.ctrlStop] else [])
  ({ s with
      encoder_running := false
      picam2_started := false
      detected_motion := false
      motion_still_count := 0
      motion_active_count := 0
      capturing_video := false
      capturing_still := false
      motion_detection := false
      timelapse_on := false }, evs)

/-- `stop_all_cameras` (process.py 283-291), for the single-camera
instance: pause the workers, then stop the camera and its encoders. -/
def stop_all_cameras (s : CamState) : CamState × List Ev :=
  let p := pause_preview_md_threads s
  let q := stop_all p.1
  (q.1, p.2 ++ q.2)

/-- `CameraCoreModel.build_configuration_object` (model.py 363-427); it
(re)builds the Picamera2 configuration object from the configuration map.
Its clamping of stream sizes happens on locals handed to the controller,
and the values it reads back (`sensor_format` from the hardware-aligned
raw stream) are controller-owned, so the modelled camera record is
unchanged. -/
def build_configuration_object (s : CamState) : CamState := s

/-- `CameraCoreModel.toggle_solo_stream_mode` (model.py 429-440). -/
def toggle_solo_stream_mode (s : CamState) (switch_on : Bool) : CamState :=
  if switch_on then
    { s with
        solo_stream_mode := true
        config := { s.config with picam_buffer_count := 1 }
        preview_stream := "main"
        record_stream := "main"
        md_stream := "main" }
  else
    { s with
        solo_stream_mode := false
        preview_stream := "lores"
        record_stream := "lores"
        md_stream := "raw" }

/-- `CameraCoreModel.restart` (model.py 284-293): stop the controller,
optionally reload configuration from the user-config file (an external
file, recorded as `configReload`; the directory/count scans as
`fileCountScan`), rebuild the configuration object, start the controller
and set the status to `ready`. -/
def restart (s : CamState) (reload_config : Bool) : CamState × List Ev :=
  let evs := [Ev.ctrlStop] ++
    (if reload_config then [Ev.configReload, Ev.fileCountScan] else [])
  let s1 := if reload_config then build_configuration_object s else s
  ({ s1 with picam2_started := true, current_status := "ready" },
    evs ++ [Ev.ctrlStart])

/-- Truncation toward zero performed by Python's `int(float)`. -/
def pyIntOfQ (x : ℚ) : Int :=
  if 0 ≤ x then ⌊x⌋ else ⌈x⌉

/-- Python `str.lower()` (ASCII). -/
def pyLower (s : String) : String :=
  String.mk (s.data.map Char.toLower)

/-- Parameter shapes `set_camera_configuration` is called with: a pipe
parameter string, or — for the internal `ix` calls — a tuple
`((width, height, buffer_count), revert_flag)`. -/
inductive CfgParam where
  | str (v : String)
  | dims (d : Int × Int × Int) (flag : Int)
  deriving DecidableEq

/-- `CameraCoreModel.set_camera_configuration` (model.py 442-568).
`Except.error` carries the class of an uncaught Python exception
(`px` can raise `IndexError` on missing fields; parameter shapes that a
call site never produces map to the corresponding Python runtime error).
`Except.ok b` is the source's boolean return. The final
`build_configuration_object` call leaves the modelled record unchanged
(see that definition). The `rs` branch backs up and rewrites the
user-config file and re-reads the default configuration file — external
file contents recorded as the `userConfigReset` event. -/
def set_camera_configuration (s : CamState) (cmd_code : String)
    (p : CfgParam) : CamState × List Ev × Except String Bool :=
  if cmd_code = "px" then
    match p with
    | .dims _ _ => (s, [], .error "AttributeError")
    | .str v =>
      let settings := (pySplitChar ' ' v.data).map String.mk
      -- Sequential `int(settings[i])` conversions with assignment after
      -- each: a missing field raises IndexError (uncaught); a non-integer
      -- raises ValueError, caught by the source and turned into
      -- `return False`, keeping the assignments already made.
      match settings.get? 0 with
      | none => (s, [], .error "IndexError")
      | some f0 =>
        match pyParseInt f0 with
        | none => (s, [], .ok false)
        | some n0 =>
          let s := { s with config := { s.config with video_width := n0 } }
          match settings.get? 1 with
          | none => (s, [], .error "IndexError")
          | some f1 =>
            match pyParseInt f1 with
            | none => (s, [], .ok false)
            | some n1 =>
              let s := { s with config := { s.config with video_height := n1 } }
              match settings.get? 2 with
              | none => (s, [], .error "IndexError")
              | some f2 =>
                match pyParseInt f2 with
                | none => (s, [], .ok false)
                | some n2 =>
                  let s := { s with config := { s.config with video_fps := n2 } }
                  match settings.get? 3 with
                  | none => (s, [], .error "IndexError")
                  | some f3 =>
                    match pyParseInt f3 with
                    | none => (s, [], .ok false)
                    | some n3 =>
                      let s := { s with config := { s.config with mp4_fps := n3 } }
                      match settings.get? 4 with
                      | none => (s, [], .error "IndexError")
                      | some f4 =>
                        match pyParseInt f4 with
                        | none => (s, [], .ok false)
                        | some n4 =>
                          let s := { s with config := { s.config with image_width := n4 } }
                          match settings.get? 5 with
                          | none => (s, [], .error "IndexError")
                          | some f5 =>
                            match pyParseInt f5 with
                            | none => (s, [], .ok false)
                            | some n5 =>
                              let s := { s with config := { s.config with image_height := n5 } }
                              (build_configuration_object s, [], .ok true)
  else if cmd_code = "fl" then
    match p with
    | .dims _ _ => (s, [], .error "TypeError")
    | .str v =>
      let hv : Int × Int :=
        if v = "1" then (1, 0)
        else if v = "2" then (0, 1)
        else if v = "3" then (1, 1)
        else (0, 0)
      let s := { s with config := { s.config with hflip := hv.1, vflip := hv.2 } }
      (build_configuration_object s, [], .ok true)
  else if cmd_code = "cr" then
    match p with
    | .dims _ _ => (s, [], .error "TypeError")
    | .str v =>
      let params := (pySplitChar ' ' v.data).map String.mk
      if params.length < 2 then (s, [], .ok false)
      else
        match pyParseInt (params.headD ""), pyParseInt ((params.get? 1).getD "") with
        | some w, some h =>
            let s := { s with sensor_format := (w, h) }
            (build_configuration_object s, [], .ok true)
        | _, _ => (s, [], .ok false)
  else if cmd_code = "cs" then
    match p with
    | .dims _ _ => (s, [], .error "TypeError")
    | .str v =>
      let params := (pySplitChar ' ' v.data).map String.mk
      if params.length < 3 then (s, [], .ok false)
      else
        let p1 := (params.get? 1).getD ""
        let p2 := (params.get? 2).getD ""
        let w1? : Option Int :=
          if p1 = "=" then some s.sensor_format.1 else pyParseInt p1
        let h1? : Option Int :=
          if p2 = "=" then some s.sensor_format.2 else pyParseInt p2
        match w1?, h1? with
        | some w1, some h1 =>
          let target := params.headD ""
          if target = "i" then
            let s := { s with config :=
              { s.config with image_width := w1, image_height := h1 } }
            (build_configuration_object s, [], .ok true)
          else if target = "v" then
            let s := { s with config :=
              { s.config with video_width := w1, video_height := h1 } }
            (build_configuration_object s, [], .ok true)
          else if target = "i+v" ∨ target = "v+i" then
            if params.length < 5 then (s, [], .ok false)
            else
              let p3 := (params.get? 3).getD ""
              let p4 := (params.get? 4).getD ""
              let w2? : Option Int :=
                if p3 = "=" then some s.sensor_format.1 else pyParseInt p3
              let h2? : Option Int :=
                if p4 = "=" then some s.sensor_format.2 else pyParseInt p4
              match w2?, h2? with
              | some w2, some h2 =>
                let s := { s with config :=
                  { s.config with
                      image_width := w1
                      image_height := h1
                      video_width := w2
                      video_height := h2 } }
                (build_configuration_object s, [], .ok true)
              | _, _ => (s, [], .ok false)
          else (s, [], .ok false)
        | _, _ => (s, [], .ok false)
  else if cmd_code = "ix" then
    match p with
    | .str _ => (s, [], .error "TypeError")
    | .dims d flag =>
      let s := { s with
          config := { s.config with
              image_width := d.1
              image_height := d.2.1
              picam_buffer_count := d.2.2 }
          sensor_format := (d.1, d.2.1) }
      let s := if flag = 0 then toggle_solo_stream_mode s true
               else toggle_solo_stream_mode s false
      (build_configuration_object s, [], .ok true)
  else if cmd_code = "1s" then
    match p with
    | .dims _ _ => (s, [], .error "TypeError")
    | .str v =>
      -- Note the source quirk: the first `if` (v == "1") is not chained to
      -- the second (`if v == "2" ... else`), so v = "1" first switches solo
      -- mode on and then the else-branch switches it back off.
      let s := if v = "1" then
          { (toggle_solo_stream_mode s true) with show_preview := false }
        else s
      let s :=
        if v = "2" then
          { (toggle_solo_stream_mode
              { s with sensor_format :=
                  (s.sensor_resolution.1, s.sensor_resolution.2) } true) with
            show_preview := false }
        else toggle_solo_stream_mode s false
      (build_configuration_object s, [], .ok true)
  else if cmd_code = "rs" then
    (build_configuration_object s, [Ev.userConfigReset], .ok true)
  else
    (build_configuration_object s, [], .ok true)

/-- `CameraCoreModel.set_motion_params` (model.py 570-601). -/
def set_motion_params (s : CamState) (cmd_code cmd_param : String) :
    CamState × Bool :=
  match pyParseInt cmd_param with
  | none => (s, false)
  | some v0 =>
    let value : Int := if v0 < 0 then 0 else v0
    if cmd_code = "mt" then
      ({ s with config := { s.config with
          motion_threshold := (value : ℚ) / (250 / 7) } }, true)
    else if cmd_code = "ms" then
      ({ s with config := { s.config with motion_initframes := value } }, true)
    else if cmd_code = "mb" then
      ({ s with config := { s.config with motion_startframes := value } }, true)
    else if cmd_code = "me" then
      ({ s with config := { s.config with motion_stopframes := value } }, true)
    else (s, true)

/-- Value shapes `set_image_adjustment` is called with: a number
(`float`/`int` call sites) or a raw parameter string (`wb`/`ag`). -/
inductive AdjVal where
  | num (x : ℚ)
  | txt (v : String)
  deriving DecidableEq

/-- `CameraCoreModel.set_image_adjustment` (model.py 908-993).
Successful branches end with a `picam2.set_controls` call, recorded as
the `setControls` event, and return `True`. Shapes no call site produces
(a string for a numeric adjustment or vice versa) return `false` and are
unreachable. -/
def set_image_adjustment (s : CamState) (adjustment_type : String)
    (value : AdjVal) : CamState × List Ev × Bool :=
  if adjustment_type = "Sharpness" then
    match value with
    | .txt _ => (s, [], false)
    | .num x =>
      let v := if x = 0 then 1
               else if x > 0 then 1 + ((x * 15) / 100)
               else 1 - (x / (-100))
      let v := max (0 : ℚ) (min 16 v)
      ({ s with config := { s.config with sharpness := v } },
        [Ev.setControls], true)
  else if adjustment_type = "Contrast" then
    match value with
    | .txt _ => (s, [], false)
    | .num x =>
      let v := if x = 0 then 1
               else if x > 0 then 1 + ((x * 31) / 100)
               else 1 - (x / (-100))
      let v := max (0 : ℚ) (min 32 v)
      ({ s with config := { s.config with contrast := v } },
        [Ev.setControls], true)
  else if adjustment_type = "Brightness" then
    match value with
    | .txt _ => (s, [], false)
    | .num x =>
      let v := ((x * 2) - 100) / 100
      let v := max (-1 : ℚ) (min 1 v)
      ({ s with config := { s.config with brightness := v } },
        [Ev.setControls], true)
  else if adjustment_type = "Saturation" then
    match value with
    | .txt _ => (s, [], false)
    | .num x =>
      let v := if x = 0 then 1
               else if x > 0 then 1 + ((x * 31) / 100)
               else 1 - (x / (-100))
      let v := max (0 : ℚ) (min 32 v)
      ({ s with config := { s.config with saturation := v } },
        [Ev.setControls], true)
  else if adjustment_type = "ExposureValue" then
    match value with
    | .txt _ => (s, [], false)
    | .num x =>
      let v := (x * 8) / 10
      let v := max (-8 : ℚ) (min 8 v)
      ({ s with config := { s.config with exposure_compensation := v } },
        [Ev.setControls], true)
  else if adjustment_type = "ExposureTime" then
    match value with
    | .txt _ => (s, [], false)
    | .num x =>
      ({ s with config := { s.config with exposure_time := x } },
        [Ev.setControls], true)
  else if adjustment_type = "AnalogueGain" then
    match value with
    | .txt _ => (s, [], false)
    | .num x =>
      ({ s with config := { s.config with analogue_gain := x / 100 } },
        [Ev.setControls], true)
  else if adjustment_type = "ColourGains" then
    match value with
    | .num _ => (s, [], false)
    | .txt v =>
      -- `red, blue = map(float, value.strip().split(" "))`: anything other
      -- than exactly two float fields raises ValueError, which the source
      -- catches and turns into `return False`.
      match (pySplitChar ' ' (pyStripChars v.data)).map String.mk with
      | [ra, rb] =>
        match pyParseFloat ra, pyParseFloat rb with
        | some red, some blue =>
          let red := max (0 : ℚ) (min 32 (red / 100))
          let blue := max (0 : ℚ) (min 32 (blue / 100))
          ({ s with config := { s.config with
              colorgains_red := red
              colorgains_blue := blue } }, [Ev.setControls], true)
        | _, _ => (s, [], false)
      | _ => (s, [], false)
  else if adjustment_type = "AwbMode" then
    match value with
    | .num _ => (s, [], false)
    | .txt v =>
      let mode := pyLower v
      let canon : Option String :=
        if mode = "auto" then some "Auto"
        else if mode = "tungsten" then some "Tungsten"
        else if mode = "fluorescent" then some "Fluorescent"
        else if mode = "daylight" then some "Daylight"
        else if mode = "cloudy" then some "Cloudy"
        else if mode = "indoor" then some "Indoor"
        else if mode = "incandescent" then some "Indoor"
        else if mode = "shade" then some "Auto"
        else if mode = "horizon" then some "Auto"
        else if mode = "greyworld" then some "Auto"
        else if mode = "flash" then some "Auto"
        else none
      match canon with
      | some m =>
        ({ s with config := { s.config with white_balance_mode := m } },
          [Ev.setControls], true)
      | none => (s, [], false)
  else (s, [], false)

/-! ## Recording toggles (`app/utilities/record.py`) -/

/-- `start_recording` (record.py 5-44): refuse when already capturing;
otherwise build the encoder, write a thumbnail, start the encoder, set
the `capturing_video` flag and re-derive the status via
`set_status("video")`. -/
def start_recording (s : CamState) : CamState × List Ev × Bool :=
  if s.capturing_video then
    (s, print_to_logfile s "Already capturing. Ignore", false)
  else
    let evs := print_to_logfile s "Capturing started" ++
      [Ev.thumbnailWrite, Ev.encoderStart]
    let s1 := { s with capturing_video := true, encoder_running := true }
    (set_status s1 (some "video"), evs, true)

/-- `stop_recording` (record.py 47-69). -/
def stop_recording (s : CamState) : CamState × List Ev × Bool :=
  if ¬ s.capturing_video then
    (s, print_to_logfile s "Already stopped. Ignore", false)
  else
    let evs := print_to_logfile s "Capturing stopped" ++
      (if s.encoder_running then [Ev.encoderStop] else [])
    let s1 := { s with
        capturing_video := false
        encoder_running := false
        detected_motion := false
        motion_still_count := 0
        motion_active_count := 0 }
    (set_status s1 (some "ready"), evs, true)

/-- `toggle_cam_record` (record.py 72-88). -/
def toggle_cam_record (s : CamState) (status : Bool) :
    CamState × List Ev × Bool :=
  if status then start_recording s else stop_recording s

/-! ## Macro execution and the external world -/

/-- The parts of the outside world the dispatcher consults: the existence,
permission bits and exit status of the macro script addressed by an `sy`
command, and the current `time.monotonic()` clock used for `ca`
durations. -/
structure ExtWorld where
  script_exists : Bool := true
  script_executable : Bool := true
  script_succeeds : Bool := true
  now : Int := 0
  deriving DecidableEq

/-- `execute_macro_command` (process.py 792-820): refuse a missing or
non-executable script without launching anything; otherwise run it
(`runScript` event) and report whether it exited with status zero. -/
def execute_script_command (w : ExtWorld) (script_name : String)
    (args : List String) : List Ev × Bool :=
  if ¬ w.script_exists then ([], false)
  else if ¬ w.script_executable then ([], false)
  else ([.runScript script_name args], w.script_succeeds)

/-! ## Persisting settings (`write_to_user_config`, process.py 60-109) -/

/-- Insertion-ordered dictionary update, as on a Python `dict`. -/
def dict_set (d : List (String × String)) (k v : String) :
    List (String × String) :=
  if d.any (fun kv => kv.1 = k) then
    d.map (fun kv => if kv.1 = k then (k, v) else kv)
  else d ++ [(k, v)]

/-- `write_to_user_config` (process.py 60-109): update the camera's
`write_to_config` dictionary according to the command's setting entry and
rewrite the user-config file (`configFileWrite`). Commands whose setting
is `None` write nothing. -/
def write_to_user_config (s : CamState) (cmd_code cmd_param : String) :
    CamState × List Ev :=
  let setting := valid_command_setting cmd_code
  let params := (pySplitChar ' ' cmd_param.data).map String.mk
  match setting with
  | .noneSet => (s, [])
  | _ =>
    let wtc :=
      if cmd_code = "dp" then
        dict_set s.write_to_config "show_preview"
          (if cmd_param = "0" then "false" else "true")
      else if cmd_code = "fl" then
        let d1 := dict_set s.write_to_config "hflip"
          (if s.config.hflip = 1 then "true" else "false")
        dict_set d1 "vflip" (if s.config.vflip = 1 then "true" else "false")
      else if cmd_code = "1s" then
        dict_set s.write_to_config "solo_stream_mode"
          (if s.solo_stream_mode then "true" else "false")
      else
        match setting with
        | .many keys =>
          let d := keys.enum.foldl
            (fun d iv =>
              if iv.1 < params.length then
                dict_set d iv.2 ((params.get? iv.1).getD "")
              else d)
            s.write_to_config
          if cmd_code = "pv" then
            dict_set d "height" (toString s.config.preview_size.2)
          else d
        | .one key => dict_set s.write_to_config key cmd_param
        | .noneSet => s.write_to_config
    ({ s with write_to_config := wtc }, [.configFileWrite])

/-! ## The dispatcher (`execute_command`, process.py 322-645)

The embedding is the single-camera instance of the dispatcher: `cams`
holds the one camera in slot 0, which is also the main camera, so group
fan-out and the `cn`/`im+im`/`ix+ix` loops act on it. -/

/-- `requires_full_restart` (process.py line 340). -/
def requires_full_restart : List String :=
  ["px", "rs", "cs", "cr", "1s", "ix", "ix+ix"]

/-- `requires_quick_restart` (process.py line 342). -/
def requires_quick_restart : List String := ["fl"]

/-- Intermediate result of one dispatch branch: the camera state, the
events emitted so far, the handler's `success` flag, an uncaught Python
exception if one escaped, and whether the branch executed the source's
early `return` (only the `sy` handler does). -/
structure BranchRes where
  st : CamState
  evs : List Ev
  success : Bool := false
  exc : Option String := none
  early : Bool := false

/-- Overall result of `execute_command`: final camera state, emitted
events, and an uncaught exception when one propagated out. -/
structure ExecResult where
  st : CamState
  evs : List Ev
  exc : Option String := none

/-- `execute_command` (process.py 322-645) for the single-camera
instance, translated branch by branch. Console `print` calls are not
recorded; `print_to_logfile` calls are (`logLine`). The final log line
"Attempted to execute ..." and the success-conditional
`write_to_user_config` run for every path except the `sy` handler's
early return and a propagating exception. -/
def execute_command (s : CamState) (w : ExtWorld)
    (cmd_code cmd_param : String) : ExecResult :=
  -- Do nothing if command is blank.
  if cmd_code = "" then { st := s, evs := [] }
  else
    let b : BranchRes :=
      if cmd_code = "ru" then
        if pyStartsWith "0" cmd_param then
          let r := stop_all_cameras s
          { st := r.1, evs := r.2 }
        else
          let r := restart s true
          let t := start_preview_md_threads r.1
          { st := t.1, evs := r.2 ++ t.2 }
      else if s.current_status ≠ "halted" then
        if cmd_code = "im" then
          { st := s, evs := [Ev.captureStill] }
        else if cmd_code = "im+im" then
          -- axis := 0 if param = "v" else 1; the capture is pixel work.
          { st := s, evs := [Ev.captureStitched] }
        else if cmd_code = "dp" then
          let s1 := { s with show_preview := cmd_param ≠ "0" }
          { st := s1, evs := [Ev.setPreviews], success := true }
        else if cmd_code = "ca" then
          if pyStartsWith "1" cmd_param then
            let r := toggle_cam_record s true
            if r.2.2 then
              let duration := String.mk (cmd_param.data.drop 2)
              if pyIsNumeric duration then
                let d := (pyParseInt duration).getD 0
                if d > 0 then
                  { st := { r.1 with record_until := some (w.now + d) },
                    evs := r.2.1, success := true }
                else { st := r.1, evs := r.2.1, success := true }
              else { st := r.1, evs := r.2.1, success := true }
            else { st := r.1, evs := r.2.1, success := false }
          else
            let s0 := { s with record_until := none }
            let r := toggle_cam_record s0 false
            { st := r.1, evs := r.2.1 }
        else if cmd_code = "md" then
          if cmd_param = "0" ∨ cmd_param = "" then
            { st := { s with motion_detection := false },
              evs := print_to_logfile s "Internal motion detection stopped" }
          else
            { st := { s with motion_detection := true },
              evs := print_to_logfile s "Internal motion detection started" }
        else if cmd_code = "mx" then
          if cmd_param = "0" then
            { st := { s with config := { s.config with motion_mode := "internal" } },
              evs := [] }
          else if cmd_param = "2" then
            { st := { s with config := { s.config with motion_mode := "monitor" } },
              evs := [] }
          else { st := s, evs := [] }
        else if cmd_code = "mt" ∨ cmd_code = "ms" ∨ cmd_code = "mb" ∨
            cmd_code = "me" then
          let r := set_motion_params s cmd_code cmd_param
          { st := r.1, evs := [], success := r.2 }
        else if cmd_code = "bi" then
          match pyParseInt cmd_param with
          | none => { st := s, evs := [] }  -- ValueError caught: not an integer
          | some new_bitrate =>
            if new_bitrate < 0 ∨ new_bitrate > 25000000 then
              { st := s, evs := [] }  -- out of range, config untouched
            else
              { st := { s with config :=
                  { s.config with video_bitrate := new_bitrate } },
                evs := [], success := true }
        else if cmd_code = "an" then
          { st := { s with config := { s.config with anno := cmd_param } },
            evs := [], success := true }
        else if cmd_code = "sc" then
          { st := s, evs := [Ev.fileCountScan] }
        else if cmd_code = "cn" then
          match pyParseInt cmd_param with
          | none => { st := s, evs := [] }  -- ValueError: not a valid slot
          | some new_main =>
            if new_main ≠ 0 then
              { st := s, evs := [] }  -- no camera in that slot
            else
              -- main_camera := new_main (the only slot in this instance)
              let p := pause_preview_md_threads s
              let t := start_preview_md_threads p.1
              { st := t.1, evs := p.2 ++ t.2 }
        else if cmd_code = "sh" then
          match pyParseFloat cmd_param with
          | none => { st := s, evs := [] }
          | some x =>
            let r := set_image_adjustment s "Sharpness" (.num x)
            { st := r.1, evs := r.2.1, success := r.2.2 }
        else if cmd_code = "co" then
          match pyParseFloat cmd_param with
          | none => { st := s, evs := [] }
          | some x =>
            let r := set_image_adjustment s "Contrast" (.num x)
            { st := r.1, evs := r.2.1, success := r.2.2 }
        else if cmd_code = "br" then
          match pyParseFloat cmd_param with
          | none => { st := s, evs := [] }
          | some x =>
            let r := set_image_adjustment s "Brightness" (.num x)
            { st := r.1, evs := r.2.1, success := r.2.2 }
        else if cmd_code = "sa" then
          match pyParseFloat cmd_param with
          | none => { st := s, evs := [] }
          | some x =>
            let r := set_image_adjustment s "Saturation" (.num x)
            { st := r.1, evs := r.2.1, success := r.2.2 }
        else if cmd_code = "wb" then
          let r := set_image_adjustment s "AwbMode" (.txt cmd_param)
          { st := r.1, evs := r.2.1, success := r.2.2 }
        else if cmd_code = "ag" then
          let r := set_image_adjustment s "ColourGains" (.txt cmd_param)
          { st := r.1, evs := r.2.1, success := r.2.2 }
        else if cmd_code = "ss" then
          match pyParseInt cmd_param with
          | none => { st := s, evs := [] }
          | some n =>
            let r := set_image_adjustment s "ExposureTime" (.num (n : ℚ))
            { st := r.1, evs := r.2.1, success := r.2.2 }
        else if cmd_code = "ec" then
          match pyParseInt cmd_param with
          | none => { st := s, evs := [] }
          | some n =>
            let r := set_image_adjustment s "ExposureValue" (.num (n : ℚ))
            { st := r.1, evs := r.2.1, success := r.2.2 }
        else if cmd_code = "is" then
          match pyParseInt cmd_param with
          | none => { st := s, evs := [] }
          | some n =>
            let r := set_image_adjustment s "AnalogueGain" (.num (n : ℚ))
            { st := r.1, evs := r.2.1, success := r.2.2 }
        else if cmd_code = "qu" then
          match pyParseInt cmd_param with
          | none => { st := s, evs := [] }  -- invalid JPEG quality value
          | some v =>
            -- config["image_quality"] := max(1, min(100, v)); the mirrored
            -- picam2.options["quality"] update is controller-owned.
            { st := { s with config :=
                { s.config with image_quality := max 1 (min 100 v) } },
              evs := [], success := true }
        else if cmd_code = "pv" then
          let settings := (pySplitChar ' ' cmd_param.data).map String.mk
          let quality := settings.headD ""
          match settings.get? 1 with
          | none => { st := s, evs := [], exc := some "IndexError" }
          | some f1 =>
            match pyParseInt f1 with
            | none => { st := s, evs := [] }  -- ValueError caught
            | some width =>
              match settings.get? 2 with
              | none => { st := s, evs := [], exc := some "IndexError" }
              | some f2 =>
                match pyParseInt f2 with
                | none => { st := s, evs := [] }
                | some divider =>
                  let height? : Option Int :=
                    if settings.length > 3 then
                      pyParseInt ((settings.get? 3).getD "")
                    else some (pyIntOfQ (((width : ℚ) / 16) * 9))
                  match height? with
                  | none => { st := s, evs := [] }
                  | some height =>
                    match pyParseInt quality with
                    | none => { st := s, evs := [] }
                    | some qv =>
                      { st := { s with config := { s.config with
                            preview_quality := max 1 (min 100 qv)
                            divider := divider
                            preview_size := (width, height) } },
                        evs := [], success := true }
        else if cmd_code = "sy" then
          let parts := (pySplitChar ' ' cmd_param.data).map String.mk
          let script_name := parts.headD ""
          let args := parts.tail
          let r := execute_script_command w script_name args
          { st := s, evs := r.1, success := r.2, early := true }
        else if cmd_code = "tl" then
          match pyParseInt cmd_param with
          | none =>
            -- `int(cmd_param)` raises ValueError outside any try/except.
            { st := s, evs := [], exc := some "ValueError" }
          | some v =>
            if v = 1 then
              let s1 := { s with timelapse_on := true, timelapse_count := 1 }
              let u := update_status_file s1
              { st := u.1,
                evs := [Ev.fileCountScan] ++ u.2 ++
                  print_to_logfile u.1 "Timelapse started" }
            else if v = 0 then
              let s1 := { s with timelapse_on := false }
              let u := update_status_file s1
              { st := u.1,
                evs := u.2 ++ print_to_logfile u.1 "Timelapse stopped" }
            else
              { st := s,
                evs := print_to_logfile s
                  ("ERROR: bad argument to tl: " ++ cmd_param) }
        else if cmd_code = "tv" then
          match pyParseInt cmd_param with
          | none => { st := s, evs := [] }  -- ValueError caught
          | some v =>
            if v < 1 ∨ v > 24 * 60 * 60 * 10 then
              { st := s, evs := [] }  -- out of range, config untouched
            else
              { st := { s with config := { s.config with tl_interval := v } },
                evs := [], success := true }
        else if requires_full_restart.contains cmd_code then
          let p := pause_preview_md_threads s
          let q := stop_all p.1
          let s2 := q.1
          let evs0 := p.2 ++ q.2
          let inner : BranchRes :=
            if cmd_code = "ix" then
              let orig : Int × Int × Int :=
                (s2.config.image_width, s2.config.image_height,
                  s2.config.picam_buffer_count)
              let c1 := set_camera_configuration s2 "ix"
                (.dims (s2.sensor_resolution.1, s2.sensor_resolution.2, 1) 0)
              let r1 := restart c1.1 false
              let s3 := { r1.1 with picam2_started := false }  -- picam2.stop()
              let c2 := set_camera_configuration s3 "ix" (.dims orig 1)
              let r2 := restart c2.1 false
              { st := r2.1,
                evs := evs0 ++ c1.2.1 ++ r1.2 ++
                  [Ev.captureStill, Ev.ctrlStop] ++ c2.2.1 ++ r2.2 }
            else if cmd_code = "ix+ix" then
              -- Loop over the single camera: stop_all, reconfigure to the
              -- maximum dims, restart; stitched capture; stop, revert,
              -- restart.
              let q2 := stop_all s2
              let s3 := q2.1
              let orig : Int × Int × Int :=
                (s3.config.image_width, s3.config.image_height,
                  s3.config.picam_buffer_count)
              let c1 := set_camera_configuration s3 "ix"
                (.dims (s3.sensor_resolution.1, s3.sensor_resolution.2, 1) 0)
              let r1 := restart c1.1 false
              let s4 := { r1.1 with picam2_started := false }  -- picam2.stop()
              let c2 := set_camera_configuration s4 "ix" (.dims orig 1)
              let r2 := restart c2.1 false
              { st := r2.1,
                evs := evs0 ++ q2.2 ++ c1.2.1 ++ r1.2 ++
                  [Ev.captureStitched, Ev.ctrlStop] ++ c2.2.1 ++ r2.2 }
            else
              match set_camera_configuration s2 cmd_code (.str cmd_param) with
              | (s3, cevs, .error e) =>
                { st := s3, evs := evs0 ++ cevs, exc := some e }
              | (s3, cevs, .ok ok) =>
                let r := restart s3 false
                { st := r.1, evs := evs0 ++ cevs ++ r.2, success := ok }
          match inner.exc with
          | some _ => inner
          | none =>
            let t := start_preview_md_threads inner.st
            { st := t.1, evs := inner.evs ++ [Ev.setPreviews] ++ t.2,
              success := inner.success }
        else if requires_quick_restart.contains cmd_code then
          let p := pause_preview_md_threads s
          let s1 := { p.1 with picam2_started := false }  -- picam2.stop()
          match set_camera_configuration s1 cmd_code (.str cmd_param) with
          | (s2, cevs, .error e) =>
            { st := s2, evs := p.2 ++ [Ev.ctrlStop] ++ cevs, exc := some e }
          | (s2, cevs, .ok ok) =>
            let r := restart s2 false
            let t := start_preview_md_threads r.1
            { st := t.1, evs := p.2 ++ [Ev.ctrlStop] ++ cevs ++ r.2 ++ t.2,
              success := ok }
        else
          -- Invalid command execution attempt.
          { st := s, evs := print_to_logfile s "Unrecognised pipe command" }
      else
        -- Camera status is halted. Cannot execute command.
        { st := s, evs := [] }
    match b.exc with
    | some e => { st := b.st, evs := b.evs, exc := some e }
    | none =>
      if b.early then { st := b.st, evs := b.evs }
      else
        let evs := b.evs ++ print_to_logfile b.st
          ("Attempted to execute " ++ cmd_code ++ " with parameters " ++
            cmd_param ++ ".")
        if b.success then
          let r := write_to_user_config b.st cmd_code cmd_param
          { st := r.1, evs := evs ++ r.2 }
        else { st := b.st, evs := evs }

/-! ## Event classifiers and trace-ordering predicates -/

/-- Is the event a worker `join` (preview or motion-detection thread)? -/
def isJoin : Ev → Bool
  | .joinWorker _ => true
  | _ => false

/-- Is the event a stop of the camera controller or of its running
encoder (the actions performed by `stop_all` / `picam2.stop()`)? -/
def isCtrlHalt : Ev → Bool
  | .ctrlStop => true
  | .encoderStop => true
  | _ => false

/-- Is the event the controller (re)start `picam2.start()`? -/
def isCtrlBegin : Ev → Bool
  | .ctrlStart => true
  | _ => false

/-- Is the event a worker-thread `start`? -/
def isWorkerStart : Ev → Bool
  | .startWorker _ => true
  | _ => false

/-- `evs_ordered P Q l`: in the trace `l`, every `P`-event occurs strictly
before every `Q`-event. -/
def evs_ordered (P Q : Ev → Bool) (l : List Ev) : Prop :=
  ∀ i j, (hi : i < l.length) → (hj : j < l.length) →
    P (l.get ⟨i, hi⟩) = true → Q (l.get ⟨j, hj⟩) = true → i < j

/-- Executable scan deciding `evs_ordered`: walk the trace and fail as
soon as a `P`-event is found at or after a `Q`-event. -/
def orderedB (P Q : Ev → Bool) : Bool → List Ev → Bool
  | _, [] => true
  | seenQ, e :: rest =>
      if P e && (seenQ || Q e) then false
      else orderedB P Q (seenQ || Q e) rest

/-! ## Concrete camera states used to evaluate the embedding -/

/-- A freshly constructed camera record before `picam2.start()`:
`current_status` is the `halted` sentinel. -/
def haltedState : CamState := {}

/-- A started, idle camera: the state after autostart
(`current_status = "ready"`, controller started, workers running). -/
def readyState : CamState :=
  { current_status := "ready", picam2_started := true, threads_alive := true }

/-- A camera whose status was explicitly set to an error string. -/
def errorState : CamState :=
  { current_status := "Error: camera failure", picam2_started := true }

end RasPyCam

/-! # Theorems -/

namespace RasPyCam

/-- Auxiliary: `orderedB` run from `seenQ = false` certifies the
index-ordering property `evs_ordered`. -/
theorem orderedB_spec (P Q : Ev → Bool) :
    ∀ (l : List Ev) (seenQ : Bool), orderedB P Q seenQ l = true →
      ((seenQ = true → ∀ e ∈ l, P e = false) ∧ evs_ordered P Q l) := by
  intro l
  induction l with
  | nil =>
    intro seenQ _
    exact ⟨fun _ e he => absurd he (List.not_mem_nil e),
      fun i j hi => by simp at hi⟩
  | cons e rest ih =>
    intro seenQ h
    rw [orderedB] at h
    by_cases hpe : (P e && (seenQ || Q e)) = true
    · simp [hpe] at h
    · simp only [hpe, if_neg, Bool.not_eq_true] at h
      have h' := ih (seenQ || Q e) (by simpa using h)
      constructor
      · intro hs x hx
        rcases List.mem_cons.mp hx with rfl | hx'
        · rcases hP : P x with _ | _
          · rfl
          · exfalso; apply hpe; simp [hP, hs]
        · exact h'.1 (by simp [hs]) x hx'
      · intro i j hi hj hPi hQj
        match i, j with
        | 0, 0 =>
          exfalso
          simp only [List.get] at hPi hQj
          apply hpe; simp [hPi, hQj]
        | 0, j + 1 => omega
        | i + 1, 0 =>
          exfalso
          simp only [List.get] at hPi hQj
          have hib : i < rest.length := by simpa using hi
          have := h'.1 (by simp [hQj]) (rest.get ⟨i, hib⟩)
            (List.get_mem rest i hib)
          rw [hPi] at this; exact absurd this (by simp)
        | i + 1, j + 1 =>
          simp only [List.get] at hPi hQj
          have := h'.2 i j (by simpa using hi) (by simpa using hj) hPi hQj
          omega

/-- Auxiliary: one direction of `orderedB_spec`, the form the ordering
proofs use. -/
theorem orderedB_imp (P Q : Ev → Bool) (l : List Ev)
    (h : orderedB P Q false l = true) : evs_ordered P Q l :=
  (orderedB_spec P Q l false h).2

/-- Auxiliary: push a list append under an `if`. -/
theorem ite_append_ev (c : Prop) [inst : Decidable c] (l₁ l₂ r : List Ev) :
    (if c then l₁ else l₂) ++ r = if c then (l₁ ++ r) else (l₂ ++ r) := by
  split <;> rfl

/-- Auxiliary: push `orderedB` under an `if`. -/
theorem orderedB_ite (P Q : Ev → Bool) (b : Bool) (c : Prop)
    [inst : Decidable c] (l₁ l₂ : List Ev) :
    orderedB P Q b (if c then l₁ else l₂) =
      if c then orderedB P Q b l₁ else orderedB P Q b l₂ := by
  split <;> rfl

/-- Auxiliary projection-under-`if` lemma. -/
theorem ite_state_threads_alive (c : Prop) [inst : Decidable c]
    (a b : CamState) :
    (if c then a else b).threads_alive =
      if c then a.threads_alive else b.threads_alive := by
  split <;> rfl

/-- Auxiliary projection-under-`if` lemma. -/
theorem ite_state_encoder_running (c : Prop) [inst : Decidable c]
    (a b : CamState) :
    (if c then a else b).encoder_running =
      if c then a.encoder_running else b.encoder_running := by
  split <;> rfl

/-- Auxiliary projection-under-`if` lemma. -/
theorem ite_state_picam2_started (c : Prop) [inst : Decidable c]
    (a b : CamState) :
    (if c then a else b).picam2_started =
      if c then a.picam2_started else b.picam2_started := by
  split <;> rfl

/-- Auxiliary projection-under-`if` lemma. -/
theorem ite_state_config (c : Prop) [inst : Decidable c] (a b : CamState) :
    (if c then a else b).config = if c then a.config else b.config := by
  split <;> rfl

/-- Auxiliary projection-under-`if` lemma. -/
theorem ite_state_current_status (c : Prop) [inst : Decidable c]
    (a b : CamState) :
    (if c then a else b).current_status =
      if c then a.current_status else b.current_status := by
  split <;> rfl

/-- Auxiliary projection-under-`if` lemma. -/
theorem ite_config_log_size (c : Prop) [inst : Decidable c]
    (a b : CamConfig) :
    (if c then a else b).log_size = if c then a.log_size else b.log_size := by
  split <;> rfl

/-- Auxiliary projection-under-`if` lemma. -/
theorem ite_prod_fst {α β : Type} (c : Prop) [inst : Decidable c]
    (a b : α × β) :
    (if c then a else b).1 = if c then a.1 else b.1 := by
  split <;> rfl

/-- Auxiliary projection-under-`if` lemma. -/
theorem ite_prod_snd {α β : Type} (c : Prop) [inst : Decidable c]
    (a b : α × β) :
    (if c then a else b).2 = if c then a.2 else b.2 := by
  split <;> rfl

/-- Auxiliary projection-under-`if` lemma. -/
theorem ite_branch_st (c : Prop) [inst : Decidable c] (a b : BranchRes) :
    (if c then a else b).st = if c then a.st else b.st := by
  split <;> rfl

/-- Auxiliary projection-under-`if` lemma. -/
theorem ite_branch_evs (c : Prop) [inst : Decidable c] (a b : BranchRes) :
    (if c then a else b).evs = if c then a.evs else b.evs := by
  split <;> rfl

/-- Auxiliary projection-under-`if` lemma. -/
theorem ite_branch_success (c : Prop) [inst : Decidable c] (a b : BranchRes) :
    (if c then a else b).success = if c then a.success else b.success := by
  split <;> rfl

/-- Auxiliary projection-under-`if` lemma. -/
theorem ite_branch_exc (c : Prop) [inst : Decidable c] (a b : BranchRes) :
    (if c then a else b).exc = if c then a.exc else b.exc := by
  split <;> rfl

/-- Auxiliary projection-under-`if` lemma. -/
theorem ite_branch_early (c : Prop) [inst : Decidable c] (a b : BranchRes) :
    (if c then a else b).early = if c then a.early else b.early := by
  split <;> rfl

/-- Auxiliary projection-under-`if` lemma. -/
theorem ite_exec_st (c : Prop) [inst : Decidable c] (a b : ExecResult) :
    (if c then a else b).st = if c then a.st else b.st := by
  split <;> rfl

/-- Auxiliary projection-under-`if` lemma. -/
theorem ite_exec_evs (c : Prop) [inst : Decidable c] (a b : ExecResult) :
    (if c then a else b).evs = if c then a.evs else b.evs := by
  split <;> rfl

/-- Auxiliary projection-under-`if` lemma. -/
theorem ite_exec_exc (c : Prop) [inst : Decidable c] (a b : ExecResult) :
    (if c then a else b).exc = if c then a.exc else b.exc := by
  split <;> rfl

/-- Auxiliary: `set_camera_configuration` for the string-parameter
full-restart codes returns an empty event list and either a raised
exception or a boolean result. -/
theorem scc_cases (s' : CamState) (code : String) (p : CfgParam)
    (hc : code = "px" ∨ code = "cs" ∨ code = "cr" ∨ code = "1s") :
    (∃ e st, set_camera_configuration s' code p = (st, [], Except.error e)) ∨
    (∃ b st, set_camera_configuration s' code p = (st, [], Except.ok b)) := by
  rcases p with ⟨v⟩ | ⟨d, f⟩ <;> rcases hc with rfl | rfl | rfl | rfl <;>
    (simp only [set_camera_configuration, String.reduceEq, reduceIte]
     repeat' split
     all_goals (first
      | (left; exact ⟨_, _, rfl⟩)
      | (right; exact ⟨_, _, rfl⟩)))

/-- Auxiliary: the internal maximum-resolution reconfiguration (`ix` with
tuple dims) emits no events. -/
theorem scc_ix_dims_evs (s' : CamState) (d : Int × Int × Int) (f : Int) :
    (set_camera_configuration s' "ix" (.dims d f)).2.1 = [] := by
  simp only [set_camera_configuration, String.reduceEq, reduceIte]

/-- C2: `set_status` with no explicit argument derives `current_status`
purely from the controller-started bit and the `capturing_still`,
`capturing_video`, `motion_detection`, `timelapse_on` flags, first match
wins, exactly as the specification words it (`specDerivedStatus`): not
started → halted; still → image; video combined with md/tl →
tl_md_video/md_video/tl_video/video; otherwise md/tl →
tl_md_ready/md_ready/timelapse/ready. In particular video∧md∧¬tl gives
md_video, adding tl gives tl_md_video, all-flags-false with the
controller started gives ready, and not-started forces halted regardless
of the other flags. -/
theorem set_status_pure_derivation : ∀ s : CamState,
    set_status s none =
      { s with current_status := (specDerivedStatus s.picam2_started
          s.capturing_still s.capturing_video s.motion_detection
          s.timelapse_on) } := by
  intro s
  simp only [set_status, specDerivedStatus, statusTruthy]
  rcases hp : s.picam2_started <;> rcases hs : s.capturing_still <;>
    rcases hv : s.capturing_video <;> simp [hp, hs, hv]

/-- C8 counterexample: an error-marked status is not sticky under an
argument-less `set_status()` call — on a started, idle camera whose
`current_status` is "Error: camera failure", `set_status()` replaces the
error string with the derived status "ready". -/
theorem set_status_error_sticky_cex :
    (set_status errorState none).current_status = "ready" ∧
    errorState.current_status = "Error: camera failure" ∧
    (set_status errorState none).current_status ≠ errorState.current_status := by
  refine ⟨by rfl, by rfl, by decide⟩

/-- C8 amended: once `current_status` begins with the error marker, a
`set_status` call without an explicit status argument does not preserve
it — it overwrites it with the status derived from the flags and the
controller-started bit; the error string survives only until the next
derivation. -/
theorem set_status_error_overwritten (s : CamState)
    (h : pyStartsWith "Error" s.current_status = true) :
    (set_status s none).current_status =
      specDerivedStatus s.picam2_started s.capturing_still s.capturing_video
        s.motion_detection s.timelapse_on := by
  simp only [set_status, specDerivedStatus, statusTruthy]
  rcases hp : s.picam2_started <;> rcases hs : s.capturing_still <;>
    rcases hv : s.capturing_video <;> simp [hp, hs, hv]

/-- Witness for C8's amended theorem at the concrete error state. -/
theorem set_status_error_overwritten_witness :
    (set_status errorState none).current_status =
      specDerivedStatus errorState.picam2_started errorState.capturing_still
        errorState.capturing_video errorState.motion_detection
        errorState.timelapse_on :=
  set_status_error_overwritten errorState (by decide)

/-- C1 counterexample: the macro code `sy` does not execute when the
camera is halted — on the freshly-constructed (halted) camera, `sy`
launches no script; its whole trace is the dispatch log line, the state
is unchanged; the same command on a ready camera does launch the
script. -/
theorem sy_halted_refused_cex :
    (execute_command haltedState {} "sy" "somescript.sh arg").st = haltedState ∧
    (execute_command haltedState {} "sy" "somescript.sh arg").evs =
      [Ev.logLine "Attempted to execute sy with parameters somescript.sh arg."] ∧
    (execute_command readyState {} "sy" "somescript.sh arg").evs =
      [Ev.runScript "somescript.sh" ["arg"]] := by
  refine ⟨by decide, by decide, by decide⟩

/-- C1 amended: every command other than the run/stop-all code `ru`
dispatched to a halted camera is refused: the camera state is unchanged,
no exception escapes, the only emitted events are log lines (so no
persisted-setting write and no controller/worker action), and — when
logging is enabled — a log line is written. The macro code `sy` is not an
exception: it is gated behind the same halted check. -/
theorem halted_commands_refused (s : CamState) (w : ExtWorld)
    (code param : String) (hs : s.current_status = "halted")
    (h0 : code ≠ "") (h1 : code ≠ "ru") :
    (execute_command s w code param).st = s ∧
    (execute_command s w code param).exc = none ∧
    (∀ e ∈ (execute_command s w code param).evs, ∃ m, e = Ev.logLine m) ∧
    (s.config.log_size ≠ 0 → (execute_command s w code param).evs ≠ []) := by
  refine ⟨?_, ?_, ?_, ?_⟩
  · simp [execute_command, hs, h0, h1, print_to_logfile]
  · simp [execute_command, hs, h0, h1, print_to_logfile]
  · simp [execute_command, hs, h0, h1, print_to_logfile]
  · intro hlog
    simp [execute_command, hs, h0, h1, print_to_logfile, hlog]

/-- Witness for C1's amended theorem: the `im` command on the halted
camera is refused. -/
theorem halted_commands_refused_witness :
    (execute_command haltedState {} "im" "").st = haltedState ∧
    (execute_command haltedState {} "im" "").exc = none ∧
    (∀ e ∈ (execute_command haltedState {} "im" "").evs, ∃ m, e = Ev.logLine m) ∧
    (haltedState.config.log_size ≠ 0 →
      (execute_command haltedState {} "im" "").evs ≠ []) :=
  halted_commands_refused haltedState {} "im" "" (by rfl) (by decide) (by decide)

/-- C3: for every full-restart command code dispatched to a non-halted
camera, the trace of the dispatch satisfies the ordering invariant: every
worker join precedes every controller/encoder stop, and every controller
start (restart completion) precedes every worker start. -/
theorem full_restart_worker_ordering (s : CamState) (w : ExtWorld)
    (code param : String) (hmem : code ∈ requires_full_restart)
    (h : s.current_status ≠ "halted") :
    evs_ordered isJoin isCtrlHalt (execute_command s w code param).evs ∧
    evs_ordered isCtrlBegin isWorkerStart
      (execute_command s w code param).evs := by
  have hcode : code = "px" ∨ code = "rs" ∨ code = "cs" ∨ code = "cr" ∨
      code = "1s" ∨ code = "ix" ∨ code = "ix+ix" := by
    simpa [requires_full_restart] using hmem
  rcases hcode with rfl | rfl | rfl | rfl | rfl | rfl | rfl
  · -- px
    rcases scc_cases (stop_all (pause_preview_md_threads s).1).1 _ (.str param)
        (Or.inl rfl) with ⟨e, st, hsc⟩ | ⟨b, st, hsc⟩ <;>
      (constructor <;> apply orderedB_imp <;>
        (simp [execute_command, pause_preview_md_threads, stop_all, restart,
      set_status, statusTruthy, start_preview_md_threads, toggle_solo_stream_mode,
      print_to_logfile, write_to_user_config, valid_command_setting,
      build_configuration_object, update_status_file,
      ite_append_ev, orderedB_ite, orderedB, isJoin, isCtrlHalt, isCtrlBegin,
      isWorkerStart, requires_full_restart, requires_quick_restart,
      ite_state_threads_alive, ite_state_encoder_running,
      ite_state_picam2_started, ite_state_config, ite_state_current_status,
      ite_config_log_size, ite_prod_fst, ite_prod_snd, ite_branch_st,
      ite_branch_evs, ite_branch_success, ite_branch_exc, ite_branch_early,
      ite_exec_st, ite_exec_evs, ite_exec_exc, scc_ix_dims_evs] at hsc
         simp [h, hsc, execute_command, pause_preview_md_threads, stop_all, restart,
      set_status, statusTruthy, start_preview_md_threads, toggle_solo_stream_mode,
      print_to_logfile, write_to_user_config, valid_command_setting,
      build_configuration_object, update_status_file,
      ite_append_ev, orderedB_ite, orderedB, isJoin, isCtrlHalt, isCtrlBegin,
      isWorkerStart, requires_full_restart, requires_quick_restart,
      ite_state_threads_alive, ite_state_encoder_running,
      ite_state_picam2_started, ite_state_config, ite_state_current_status,
      ite_config_log_size, ite_prod_fst, ite_prod_snd, ite_branch_st,
      ite_branch_evs, ite_branch_success, ite_branch_exc, ite_branch_early,
      ite_exec_st, ite_exec_evs, ite_exec_exc, scc_ix_dims_evs]))
  · -- rs
    constructor <;> apply orderedB_imp <;>
      simp [h, set_camera_configuration, execute_command, pause_preview_md_threads, stop_all, restart,
      set_status, statusTruthy, start_preview_md_threads, toggle_solo_stream_mode,
      print_to_logfile, write_to_user_config, valid_command_setting,
      build_configuration_object, update_status_file,
      ite_append_ev, orderedB_ite, orderedB, isJoin, isCtrlHalt, isCtrlBegin,
      isWorkerStart, requires_full_restart, requires_quick_restart,
      ite_state_threads_alive, ite_state_encoder_running,
      ite_state_picam2_started, ite_state_config, ite_state_current_status,
      ite_config_log_size, ite_prod_fst, ite_prod_snd, ite_branch_st,
      ite_branch_evs, ite_branch_success, ite_branch_exc, ite_branch_early,
      ite_exec_st, ite_exec_evs, ite_exec_exc, scc_ix_dims_evs]
  · -- cs
    rcases scc_cases (stop_all (pause_preview_md_threads s).1).1 _ (.str param)
        (Or.inr (Or.inl rfl)) with ⟨e, st, hsc⟩ | ⟨b, st, hsc⟩ <;>
      (constructor <;> apply orderedB_imp <;>
        (simp [execute_command, pause_preview_md_threads, stop_all, restart,
      set_status, statusTruthy, start_preview_md_threads, toggle_solo_stream_mode,
      print_to_logfile, write_to_user_config, valid_command_setting,
      build_configuration_object, update_status_file,
      ite_append_ev, orderedB_ite, orderedB, isJoin, isCtrlHalt, isCtrlBegin,
      isWorkerStart, requires_full_restart, requires_quick_restart,
      ite_state_threads_alive, ite_state_encoder_running,
      ite_state_picam2_started, ite_state_config, ite_state_current_status,
      ite_config_log_size, ite_prod_fst, ite_prod_snd, ite_branch_st,
      ite_branch_evs, ite_branch_success, ite_branch_exc, ite_branch_early,
      ite_exec_st, ite_exec_evs, ite_exec_exc, scc_ix_dims_evs] at hsc
         simp [h, hsc, execute_command, pause_preview_md_threads, stop_all, restart,
      set_status, statusTruthy, start_preview_md_threads, toggle_solo_stream_mode,
      print_to_logfile, write_to_user_config, valid_command_setting,
      build_configuration_object, update_status_file,
      ite_append_ev, orderedB_ite, orderedB, isJoin, isCtrlHalt, isCtrlBegin,
      isWorkerStart, requires_full_restart, requires_quick_restart,
      ite_state_threads_alive, ite_state_encoder_running,
      ite_state_picam2_started, ite_state_config, ite_state_current_status,
      ite_config_log_size, ite_prod_fst, ite_prod_snd, ite_branch_st,
      ite_branch_evs, ite_branch_success, ite_branch_exc, ite_branch_early,
      ite_exec_st, ite_exec_evs, ite_exec_exc, scc_ix_dims_evs]))
  · -- cr
    rcases scc_cases (stop_all (pause_preview_md_threads s).1).1 _ (.str param)
        (Or.inr (Or.inr (Or.inl rfl))) with ⟨e, st, hsc⟩ | ⟨b, st, hsc⟩ <;>
      (constructor <;> apply orderedB_imp <;>
        (simp [execute_command, pause_preview_md_threads, stop_all, restart,
      set_status, statusTruthy, start_preview_md_threads, toggle_solo_stream_mode,
      print_to_logfile, write_to_user_config, valid_command_setting,
      build_configuration_object, update_status_file,
      ite_append_ev, orderedB_ite, orderedB, isJoin, isCtrlHalt, isCtrlBegin,
      isWorkerStart, requires_full_restart, requires_quick_restart,
      ite_state_threads_alive, ite_state_encoder_running,
      ite_state_picam2_started, ite_state_config, ite_state_current_status,
      ite_config_log_size, ite_prod_fst, ite_prod_snd, ite_branch_st,
      ite_branch_evs, ite_branch_success, ite_branch_exc, ite_branch_early,
      ite_exec_st, ite_exec_evs, ite_exec_exc, scc_ix_dims_evs] at hsc
         simp [h, hsc, execute_command, pause_preview_md_threads, stop_all, restart,
      set_status, statusTruthy, start_preview_md_threads, toggle_solo_stream_mode,
      print_to_logfile, write_to_user_config, valid_command_setting,
      build_configuration_object, update_status_file,
      ite_append_ev, orderedB_ite, orderedB, isJoin, isCtrlHalt, isCtrlBegin,
      isWorkerStart, requires_full_restart, requires_quick_restart,
      ite_state_threads_alive, ite_state_encoder_running,
      ite_state_picam2_started, ite_state_config, ite_state_current_status,
      ite_config_log_size, ite_prod_fst, ite_prod_snd, ite_branch_st,
      ite_branch_evs, ite_branch_success, ite_branch_exc, ite_branch_early,
      ite_exec_st, ite_exec_evs, ite_exec_exc, scc_ix_dims_evs]))
  · -- 1s
    rcases scc_cases (stop_all (pause_preview_md_threads s).1).1 _ (.str param)
        (Or.inr (Or.inr (Or.inr rfl))) with ⟨e, st, hsc⟩ | ⟨b, st, hsc⟩ <;>
      (constructor <;> apply orderedB_imp <;>
        (simp [execute_command, pause_preview_md_threads, stop_all, restart,
      set_status, statusTruthy, start_preview_md_threads, toggle_solo_stream_mode,
      print_to_logfile, write_to_user_config, valid_command_setting,
      build_configuration_object, update_status_file,
      ite_append_ev, orderedB_ite, orderedB, isJoin, isCtrlHalt, isCtrlBegin,
      isWorkerStart, requires_full_restart, requires_quick_restart,
      ite_state_threads_alive, ite_state_encoder_running,
      ite_state_picam2_started, ite_state_config, ite_state_current_status,
      ite_config_log_size, ite_prod_fst, ite_prod_snd, ite_branch_st,
      ite_branch_evs, ite_branch_success, ite_branch_exc, ite_branch_early,
      ite_exec_st, ite_exec_evs, ite_exec_exc, scc_ix_dims_evs] at hsc
         simp [h, hsc, execute_command, pause_preview_md_threads, stop_all, restart,
      set_status, statusTruthy, start_preview_md_threads, toggle_solo_stream_mode,
      print_to_logfile, write_to_user_config, valid_command_setting,
      build_configuration_object, update_status_file,
      ite_append_ev, orderedB_ite, orderedB, isJoin, isCtrlHalt, isCtrlBegin,
      isWorkerStart, requires_full_restart, requires_quick_restart,
      ite_state_threads_alive, ite_state_encoder_running,
      ite_state_picam2_started, ite_state_config, ite_state_current_status,
      ite_config_log_size, ite_prod_fst, ite_prod_snd, ite_branch_st,
      ite_branch_evs, ite_branch_success, ite_branch_exc, ite_branch_early,
      ite_exec_st, ite_exec_evs, ite_exec_exc, scc_ix_dims_evs]))
  · -- ix
    constructor <;> apply orderedB_imp <;>
      simp [h, set_camera_configuration, execute_command, pause_preview_md_threads, stop_all, restart,
      set_status, statusTruthy, start_preview_md_threads, toggle_solo_stream_mode,
      print_to_logfile, write_to_user_config, valid_command_setting,
      build_configuration_object, update_status_file,
      ite_append_ev, orderedB_ite, orderedB, isJoin, isCtrlHalt, isCtrlBegin,
      isWorkerStart, requires_full_restart, requires_quick_restart,
      ite_state_threads_alive, ite_state_encoder_running,
      ite_state_picam2_started, ite_state_config, ite_state_current_status,
      ite_config_log_size, ite_prod_fst, ite_prod_snd, ite_branch_st,
      ite_branch_evs, ite_branch_success, ite_branch_exc, ite_branch_early,
      ite_exec_st, ite_exec_evs, ite_exec_exc, scc_ix_dims_evs]
  · -- ix+ix
    constructor <;> apply orderedB_imp <;>
      simp [h, set_camera_configuration, execute_command, pause_preview_md_threads, stop_all, restart,
      set_status, statusTruthy, start_preview_md_threads, toggle_solo_stream_mode,
      print_to_logfile, write_to_user_config, valid_command_setting,
      build_configuration_object, update_status_file,
      ite_append_ev, orderedB_ite, orderedB, isJoin, isCtrlHalt, isCtrlBegin,
      isWorkerStart, requires_full_restart, requires_quick_restart,
      ite_state_threads_alive, ite_state_encoder_running,
      ite_state_picam2_started, ite_state_config, ite_state_current_status,
      ite_config_log_size, ite_prod_fst, ite_prod_snd, ite_branch_st,
      ite_branch_evs, ite_branch_success, ite_branch_exc, ite_branch_early,
      ite_exec_st, ite_exec_evs, ite_exec_exc, scc_ix_dims_evs]

/-- Witness for C3 at a concrete input: the `px` command on the ready
camera. -/
theorem full_restart_worker_ordering_witness :
    evs_ordered isJoin isCtrlHalt
      (execute_command readyState {} "px" "1 2 3 4 5 6").evs ∧
    evs_ordered isCtrlBegin isWorkerStart
      (execute_command readyState {} "px" "1 2 3 4 5 6").evs :=
  full_restart_worker_ordering readyState {} "px" "1 2 3 4 5 6"
    (by decide) (by decide)

/-- C4: `make_cmd_lists` rejects a whole group: a string without a closing
bracket parses to `none`, and any non-blank code in the bracketed code
list that is not a known command makes the whole group parse to `none` —
no partial command list is produced. -/
theorem make_cmd_lists_group_rejection (s : String) :
    (s.data.contains ']' = false → make_cmd_lists s = none) ∧
    (∀ c, c ∈ group_codes s → c ≠ "" → VALID_COMMANDS.contains c = false →
      make_cmd_lists s = none) := by
  constructor
  · intro h
    have hns : ']' ∉ s.data := by simpa using h
    simp [make_cmd_lists, hns]
  · intro c hc hne hnc
    have hnc' : c ∉ VALID_COMMANDS := by simpa using hnc
    simp only [make_cmd_lists]
    simp
    intro _
    exact ⟨c, hc, hne, hnc'⟩

/-- Witness for C4: a group missing its `]` and a group with the unknown
code `zz` are both rejected. -/
theorem make_cmd_lists_group_rejection_witness :
    make_cmd_lists "[ca, im" = none ∧ make_cmd_lists "[zz] p" = none :=
  ⟨(make_cmd_lists_group_rejection "[ca, im").1 (by decide),
   (make_cmd_lists_group_rejection "[zz] p").2 "zz" (by decide) (by decide)
     (by decide)⟩

/-- C5 counterexample: the quoted example group is rejected outright,
because `cb` is not a member of the known command set — `make_cmd_lists`
returns `False` (`none`), not the claimed code/parameter lists. -/
theorem make_cmd_lists_example_cex :
    make_cmd_lists "[ca, cb] [p1, p2/,x]" = none ∧
    ¬ ("cb" ∈ VALID_COMMANDS) ∧
    make_cmd_lists "[ca, cb] [p1, p2/,x]" ≠
      some (["ca", "cb"], ["p1", " p2,x"]) := by
  refine ⟨by decide, by decide, by decide⟩

/-- C5 amended: with known codes in place of the spec's `cb`/`cc`
placeholders the claimed parsing holds — the escaped comma is unescaped
after splitting, and a missing trailing parameter is padded with the
empty string — and for every accepted group the parameter list is at
least as long as the code list, with strict excess possible when the
bracketed parameter list supplies more entries than there are codes. -/
theorem make_cmd_lists_amended (s : String) :
    make_cmd_lists "[ca, md] [p1, p2/,x]" = some (["ca", "md"], ["p1", " p2,x"]) ∧
    make_cmd_lists "[ca, md, im] [p1, p2]" =
      some (["ca", "md", "im"], ["p1", " p2", ""]) ∧
    make_cmd_lists "[ca] [p1, p2]" = some (["ca"], ["p1", " p2"]) ∧
    (∀ codes params, make_cmd_lists s = some (codes, params) →
      codes.length ≤ params.length) := by
  refine ⟨by decide, by decide, by decide, ?_⟩
  intro codes params h
  simp only [make_cmd_lists] at h
  split at h
  · cases h
  · split at h
    · cases h
    · rw [Option.some.injEq, Prod.mk.injEq] at h
      obtain ⟨h1, h2⟩ := h
      subst h1; subst h2
      simp only [List.length_append, List.length_replicate]
      omega

/-- Witness for C5's amended theorem: the accepted group `[ca] [p1, p2]`
has one code and two parameters. -/
theorem make_cmd_lists_amended_witness :
    (["ca"] : List String).length ≤ (["p1", " p2"] : List String).length :=
  (make_cmd_lists_amended "[ca] [p1, p2]").2.2.2 ["ca"] ["p1", " p2"]
    (by decide)

/-- C6: the pipe listener's queue append is an unconditional
`list.append` — it never consults `FIFO_MAX` — so eleven validated
commands enqueued while the dispatcher is not draining leave the queue at
length 11, exceeding the declared maximum of 10. -/
theorem command_queue_growth_unbounded :
    (∀ (q : List PipeCmd) (c : PipeCmd),
      (enqueue_incoming q c).length = q.length + 1) ∧
    FIFO_MAX = 10 ∧
    (Nat.iterate (fun q => enqueue_incoming q (.single "ca" "1"))
        (FIFO_MAX + 1) []).length = FIFO_MAX + 1 := by
  refine ⟨fun q c => by simp [enqueue_incoming], by decide, by decide⟩

/-- C7: the `tl` handler calls `int(cmd_param)` outside any `try`, so a
non-integer parameter on a non-halted camera raises `ValueError`, which
propagates out of `execute_command` (skipping even the attempt log line)
instead of being reported as a local failure. -/
theorem tl_non_integer_raises :
    (execute_command readyState {} "tl" "abc").exc = some "ValueError" ∧
    (execute_command readyState {} "tl" "abc").st = readyState ∧
    (execute_command readyState {} "tl" "abc").evs = [] := by
  refine ⟨by decide, by decide, by decide⟩

/-- C9: on a non-halted camera the `bi` command with value `-1` or
`25000001` fails — the camera record (including `video_bitrate`) is
unchanged and no settings write happens — while `25000000` succeeds,
setting `video_bitrate` to 25000000 and persisting it. -/
theorem bi_bitrate_range_check (s : CamState) (w : ExtWorld)
    (h : s.current_status ≠ "halted") :
    (execute_command s w "bi" "-1").st = s ∧
    (execute_command s w "bi" "25000001").st = s ∧
    (execute_command s w "bi" "25000000").st.config.video_bitrate = 25000000 ∧
    Ev.configFileWrite ∉ (execute_command s w "bi" "-1").evs ∧
    Ev.configFileWrite ∉ (execute_command s w "bi" "25000001").evs ∧
    Ev.configFileWrite ∈ (execute_command s w "bi" "25000000").evs := by
  refine ⟨?_, ?_, ?_, ?_, ?_, ?_⟩ <;>
    simp [execute_command, h, show pyParseInt "-1" = some (-1) from rfl,
      show pyParseInt "25000001" = some 25000001 from rfl,
      show pyParseInt "25000000" = some 25000000 from rfl,
      print_to_logfile, write_to_user_config, valid_command_setting, dict_set]

/-- Witness for C9 at the ready camera. -/
theorem bi_bitrate_range_check_witness :
    (execute_command readyState {} "bi" "-1").st = readyState ∧
    (execute_command readyState {} "bi" "25000001").st = readyState ∧
    (execute_command readyState {} "bi" "25000000").st.config.video_bitrate =
      25000000 ∧
    Ev.configFileWrite ∉ (execute_command readyState {} "bi" "-1").evs ∧
    Ev.configFileWrite ∉ (execute_command readyState {} "bi" "25000001").evs ∧
    Ev.configFileWrite ∈ (execute_command readyState {} "bi" "25000000").evs :=
  bi_bitrate_range_check readyState {} (by decide)

/-- C10: on a non-halted camera, a `qu` command whose parameter parses as
the integer v reports success and sets `image_quality` to
`max 1 (min 100 v)` — out-of-range values are clamped into [1, 100] and
persisted as successful rather than rejected. -/
theorem qu_quality_clamped (s : CamState) (w : ExtWorld) (param : String)
    (v : Int) (h : s.current_status ≠ "halted")
    (hp : pyParseInt param = some v) :
    (execute_command s w "qu" param).st.config.image_quality =
      max 1 (min 100 v) ∧
    Ev.configFileWrite ∈ (execute_command s w "qu" param).evs := by
  refine ⟨?_, ?_⟩ <;>
    simp [execute_command, h, hp, print_to_logfile, write_to_user_config,
      valid_command_setting, dict_set]

/-- Witness for C10: `qu 250` clamps to 100 on the ready camera. -/
theorem qu_quality_clamped_witness :
    (execute_command readyState {} "qu" "250").st.config.image_quality =
      max 1 (min 100 250) ∧
    Ev.configFileWrite ∈ (execute_command readyState {} "qu" "250").evs :=
  qu_quality_clamped readyState {} "250" 250 (by decide) (by rfl)

end RasPyCam

